import Mathlib

/-!
Shallow embedding of the streaming protocol-adapter layer of this repository:
the Gemini provider adapter (src/api/providers/gemini.ts) and the
file-access gate (src/core/ignore/ClineIgnoreController.ts), together with
the retry wrapper and content-unescaping helper that the adapter imports.
The adapter code is embedded as pure functions over an explicit model of
the backend response stream; the generator is modelled as the finite list
of events it yields, paired with the exception (if any) it terminates with.
-/

namespace Cline

/-- Canonical stream events produced by an adapter, from the ApiStream
vocabulary: a text delta, the single usage record, or a terminal error
(the exception the generator raises, viewed as an event by the caller). -/
inductive StreamEvent where
  | text (s : String)
  | usage (inputTokens outputTokens : Nat)
  | err (message : String)
deriving Repr, DecidableEq

/-- Modelled from the spec: unescapeGeminiContent
(src/api/transform/gemini-format.ts is not in the sampled sources).
The spec, section 4.2 (2), asks to reverse double-escaped control
characters the backend streaming format introduces: literal backslash
sequences standing in for newlines, tabs, carriage returns and quotes. -/
def unescapeChars : List Char → List Char
  | [] => []
  | '\\' :: 'n' :: rest => '\n' :: unescapeChars rest
  | '\\' :: 't' :: rest => '\t' :: unescapeChars rest
  | '\\' :: 'r' :: rest => '\r' :: unescapeChars rest
  | '\\' :: '\'' :: rest => '\'' :: unescapeChars rest
  | '\\' :: '"' :: rest => '"' :: unescapeChars rest
  | c :: rest => c :: unescapeChars rest

/-- Modelled from the spec: the string-level unescaping applied to each
decoded fragment before it is yielded as a TextChunk. -/
def unescapeGeminiContent (s : String) : String :=
  String.mk (unescapeChars s.data)

/-- One raw fragment of the backend stream. Calling chunk.text() either
decodes to a string or raises; we model the call result as an Except. -/
structure Chunk where
  text : Except String String
deriving Repr

/-- One entry of response.candidates; only finishReason is consulted. -/
structure Candidate where
  finishReason : Option String
deriving Repr, DecidableEq

/-- response.usageMetadata: either counter may be absent on the wire. -/
structure UsageMetadata where
  promptTokenCount : Option Nat
  candidatesTokenCount : Option Nat
deriving Repr, DecidableEq

/-- The aggregated response available after the stream completes. -/
structure GenResponse where
  candidates : List Candidate
  usageMetadata : Option UsageMetadata
deriving Repr, DecidableEq

/-- result of generateContentStream: the raw fragment stream plus the
awaited final response (none models an absent response). -/
structure GenResult where
  stream : List Chunk
  response : Option GenResponse
deriving Repr

/-- The for-await loop over result.stream in createMessage
(src/api/providers/gemini.ts lines 64-78): each chunk is decoded; a
decode exception aborts the loop at once and is rethrown; a decoded text
is yielded as a TextChunk after unescaping, unless it is empty (or
absent), in which case the chunk yields nothing. Returns the yielded
events and the exception the loop terminated with, if any. -/
def runStream : List Chunk → List StreamEvent × Option String
  | [] => ([], none)
  | c :: cs =>
    match c.text with
    | Except.error e => ([], some e)
    | Except.ok t =>
      if t = "" then runStream cs
      else
        let out := runStream cs
        (StreamEvent.text (unescapeGeminiContent t) :: out.1, out.2)

/-- response.candidates?.[0]?.finishReason -/
def finishReasonOf (r : GenResponse) : Option String :=
  r.candidates.head?.bind Candidate.finishReason

/-- GeminiHandler.createMessage over a modelled backend outcome: the
argument is the result of awaiting generateContentStream (error when the
call itself throws). Returns the events the generator yields, in order,
paired with the exception it raises (none on clean completion). Mirrors
src/api/providers/gemini.ts lines 54-107: run the fragment loop; if it
raised, rethrow; await the final response, rejecting its absence; map
finishReason SAFETY, RECITATION and OTHER to thrown errors; otherwise
yield the single usage event, defaulting missing counters to zero. -/
def createMessage (res : Except String GenResult) :
    List StreamEvent × Option String :=
  match res with
  | Except.error e => ([], some e)
  | Except.ok r =>
    let run := runStream r.stream
    match run.2 with
    | some e => (run.1, some e)
    | none =>
      match r.response with
      | none => (run.1, some "No response received from Gemini API")
      | some response =>
        let finishReason := finishReasonOf response
        if finishReason = some "SAFETY" then
          (run.1, some "Content generation was blocked for safety reasons")
        else if finishReason = some "RECITATION" then
          (run.1, some "Content generation was blocked due to potential copyright issues")
        else if finishReason = some "OTHER" then
          (run.1, some "Content generation was blocked for other reasons")
        else
          (run.1 ++ [StreamEvent.usage
            ((response.usageMetadata.bind UsageMetadata.promptTokenCount).getD 0)
            ((response.usageMetadata.bind UsageMetadata.candidatesTokenCount).getD 0)],
           none)

/-- The event sequence as observed by the caller of the stream: the
yielded events, followed by the raised exception surfaced as a terminal
Error event, when there is one. -/
def eventSeq (res : Except String GenResult) : List StreamEvent :=
  let out := createMessage res
  out.1 ++ (match out.2 with
    | some e => [StreamEvent.err e]
    | none => [])

/-- Whether an event is the usage record. -/
def isUsage : StreamEvent → Bool
  | StreamEvent.usage _ _ => true
  | _ => false

/-- Whether an event is a terminal error. -/
def isErr : StreamEvent → Bool
  | StreamEvent.err _ => true
  | _ => false

/-- Whether an event is a text chunk. -/
def isText : StreamEvent → Bool
  | StreamEvent.text _ => true
  | _ => false

/-- The diagnostic message the adapter throws for each blocked finish
reason (src/api/providers/gemini.ts lines 91-97). -/
def blockMessage (finishReason : String) : String :=
  if finishReason = "SAFETY" then
    "Content generation was blocked for safety reasons"
  else if finishReason = "RECITATION" then
    "Content generation was blocked due to potential copyright issues"
  else
    "Content generation was blocked for other reasons"

/-- Modelled from the spec: one attempt observed by the retry wrapper
(src/api/retry.ts is not in the sampled sources). The wrapped generator
forwards some events and then either completes or fails; a failure
carries its retryability classification from the classification table of
spec section 4.3. -/
structure Attempt where
  events : List StreamEvent
  failure : Option (String × Bool)

/-- Modelled from the spec: the retry wrapper of spec section 4.3.
Consumes the outcomes of successive re-invocations of the wrapped
generate call. A failure is retried only when it is retryable, the
attempt budget is not exhausted, and no event has yet been forwarded to
the caller; once at least one event has been forwarded, or the failure
is fatal, or the budget is spent, the failure is surfaced as a terminal
Error. Returns the event sequence the caller observes and the number of
attempts performed. -/
def runRetry : Nat → List Attempt → List StreamEvent × Nat
  | _, [] => ([], 0)
  | budget, a :: rest =>
    match a.failure with
    | none => (a.events, 1)
    | some f =>
      if a.events = [] ∧ f.2 = true ∧ budget > 1 then
        let out := runRetry (budget - 1) rest
        (out.1, out.2 + 1)
      else
        (a.events ++ [StreamEvent.err f.1], 1)

/-- Capability descriptor of one model, from the ModelInfo shape the
adapter consults (shared/api is not in the sampled sources; fields are
those named by spec section 3 ModelDescriptor). -/
structure ModelInfo where
  maxTokens : Option Nat
  contextWindow : Option Nat
  supportsImages : Bool
deriving Repr, DecidableEq

/-- The static Gemini model catalog together with its designated default
identifier (geminiModels and geminiDefaultModelId of shared/api). The
catalog is read-only data: the default identifier is one of its keys by
typing (geminiDefaultModelId : GeminiModelId), and the identifiers of
the static catalog are non-empty model-name strings. -/
structure GeminiCatalog where
  models : List (String × ModelInfo)
  defaultId : String
  defaultInfo : ModelInfo
  default_mem : models.lookup defaultId = some defaultInfo
  no_empty_key : models.lookup "" = none

/-- Configuration options handed to the handler constructor; only the
fields the embedded code reads are modelled. A missing field is none. -/
structure ApiHandlerOptions where
  geminiApiKey : Option String
  apiModelId : Option String
deriving Repr, DecidableEq

/-- JavaScript truthiness of an optional string: undefined and the empty
string are falsy. -/
def truthy : Option String → Bool
  | none => false
  | some s => s ≠ ""

/-- GeminiHandler.getModel (src/api/providers/gemini.ts lines 115-125)
over the catalog it closes over: if options.apiModelId is truthy and is
a key of geminiModels, return that entry; otherwise return the default
identifier and its descriptor. -/
def getModel (cat : GeminiCatalog) (options : ApiHandlerOptions) :
    String × ModelInfo :=
  let modelId := options.apiModelId
  if truthy modelId then
    match cat.models.lookup (modelId.getD "") with
    | some info => (modelId.getD "", info)
    | none => (cat.defaultId, cat.defaultInfo)
  else
    (cat.defaultId, cat.defaultInfo)

/-- State of a constructed GeminiHandler: the stored options and the
credential the GoogleGenerativeAI client was constructed with. -/
structure GeminiHandler where
  options : ApiHandlerOptions
  clientKey : String
deriving Repr, DecidableEq

/-- GeminiHandler constructor (src/api/providers/gemini.ts lines 30-36):
if options.geminiApiKey is falsy (absent, or the empty string) it throws
at once; otherwise it stores the options and builds the client with the
key. The throw is modelled as Except.error carrying the message. -/
def GeminiHandler.construct (options : ApiHandlerOptions) :
    Except String GeminiHandler :=
  if truthy options.geminiApiKey then
    Except.ok { options := options, clientKey := options.geminiApiKey.getD "" }
  else
    Except.error "API key is required for Google Gemini"

/-- State of a ClineIgnoreController
(src/core/ignore/ClineIgnoreController.ts). The path library and the
ignore-pattern matcher are third-party collaborators, embedded as
abstract functions: relativize models path.resolve followed by
path.relative and toPosix, returning none when the ignore library would
throw (a path outside cwd); ignores models ignoreInstance.ignores on the
relativized path. -/
structure ClineIgnoreController where
  clineIgnoreExists : Bool
  relativize : String → Option String
  ignores : String → Bool

/-- ClineIgnoreController.validateAccess (lines 84-101): always allow
when no .clineignore exists; otherwise relativize the path and allow it
exactly when the matcher does not ignore it; a throw while relativizing
or matching (a path outside cwd) is caught and access is allowed. -/
def validateAccess (c : ClineIgnoreController) (filePath : String) : Bool :=
  if !c.clineIgnoreExists then
    true
  else
    match c.relativize filePath with
    | none => true
    | some relativePath => !c.ignores relativePath

/-- ClineIgnoreController.filterPaths (lines 108-121): pair each path
with its validateAccess verdict, keep the allowed pairs, and project the
paths back out. -/
def filterPaths (c : ClineIgnoreController) (paths : List String) :
    List String :=
  ((paths.map (fun p => (p, validateAccess c p))).filter
    (fun x => x.2)).map (fun x => x.1)

/-! Concrete instances used by the witnesses below. -/

/-- A safety-blocked backend outcome with zero text fragments. -/
def safetyResult : GenResult :=
  { stream := [],
    response := some { candidates := [{ finishReason := some "SAFETY" }],
                       usageMetadata := none } }

/-- A length-truncated backend outcome with zero text fragments. -/
def lengthResult : GenResult :=
  { stream := [],
    response := some { candidates := [{ finishReason := some "LENGTH" }],
                       usageMetadata := none } }

/-- A stream whose second chunk raises while decoding. -/
def abortResult : GenResult :=
  { stream := [{ text := Except.ok "a" }, { text := Except.error "boom" },
               { text := Except.ok "b" }],
    response := some { candidates := [{ finishReason := some "STOP" }],
                       usageMetadata := none } }

/-- The backend outcome of spec Scenario A. -/
def scenarioAResult : GenResult :=
  { stream := [{ text := Except.ok "Hel" }, { text := Except.ok "lo!" }],
    response := some { candidates := [{ finishReason := some "STOP" }],
                       usageMetadata := some { promptTokenCount := some 5,
                                               candidatesTokenCount := some 2 } } }

/-- The event sequence of spec Scenario A. -/
def scenarioAEvents : List StreamEvent :=
  [StreamEvent.text "Hel", StreamEvent.text "lo!", StreamEvent.usage 5 2]

/-- A stream whose first fragment decodes to the empty string. -/
def emptyFragmentResult : GenResult :=
  { stream := [{ text := Except.ok "" }, { text := Except.ok "x" }],
    response := some { candidates := [], usageMetadata := none } }

/-- A small concrete catalog standing in for the static geminiModels data. -/
def exampleCatalog : GeminiCatalog :=
  { models := [("gemini-1.5-pro-002",
                 { maxTokens := some 8192, contextWindow := some 2097152,
                   supportsImages := true }),
               ("gemini-2.0-flash-001",
                 { maxTokens := some 8192, contextWindow := some 1048576,
                   supportsImages := true })],
    defaultId := "gemini-2.0-flash-001",
    defaultInfo := { maxTokens := some 8192, contextWindow := some 1048576,
                     supportsImages := true },
    default_mem := by decide,
    no_empty_key := by decide }

/-- Options whose credential field holds the empty string. -/
def emptyKeyOptions : ApiHandlerOptions :=
  { geminiApiKey := some "", apiModelId := none }

/-- A controller with no .clineignore file, whose matcher would reject
everything if it were consulted. -/
def noIgnoreFileController : ClineIgnoreController :=
  { clineIgnoreExists := false,
    relativize := fun p => some p,
    ignores := fun _ => true }

/-! Helper lemmas shared by the claim theorems. -/

/-- Unescaping never turns a non-empty character list into the empty one:
every step of unescapeChars consumes at least one input character and
emits exactly one output character. -/
theorem unescapeChars_cons_ne_nil (c : Char) (rest : List Char) :
    unescapeChars (c :: rest) ≠ [] := by
  rw [unescapeChars.eq_def]
  split <;> simp_all

/-- Unescaping a non-empty fragment yields a non-empty string. -/
theorem unescapeGeminiContent_ne_empty (s : String) (h : s ≠ "") :
    unescapeGeminiContent s ≠ "" := by
  cases s with
  | mk data =>
    cases data with
    | nil => exact absurd rfl h
    | cons c rest =>
      intro hcontra
      exact unescapeChars_cons_ne_nil c rest
        (by simpa [unescapeGeminiContent, String.ext_iff] using hcontra)

/-- Every event the fragment loop yields is a TextChunk with non-empty
text: usage and error events are produced only after the loop, and empty
decoded fragments are dropped. -/
theorem runStream_mem (cs : List Chunk) :
    ∀ e ∈ (runStream cs).1, ∃ s, e = StreamEvent.text s ∧ s ≠ "" := by
  induction cs with
  | nil => simp [runStream]
  | cons c cs ih =>
    intro e he
    rcases hct : c.text with ex | t
    · simp [runStream, hct] at he
    · by_cases ht : t = ""
      · exact ih e (by simpa [runStream, hct, ht] using he)
      · rw [show (runStream (c :: cs)).1 =
            StreamEvent.text (unescapeGeminiContent t) :: (runStream cs).1 by
              simp [runStream, hct, ht]] at he
        rw [List.mem_cons] at he
        rcases he with he | he
        · exact ⟨unescapeGeminiContent t, by simp_all,
            unescapeGeminiContent_ne_empty t ht⟩
        · exact ih e he

/-- Shape of any completed createMessage run: the yielded events are the
non-empty TextChunks of the fragment loop, followed either by a single
usage event on clean completion, or by nothing and a raised exception. -/
theorem createMessage_events (res : Except String GenResult) :
    ∃ es, (∀ e ∈ es, ∃ s, e = StreamEvent.text s ∧ s ≠ "") ∧
      ((∃ i o, createMessage res = (es ++ [StreamEvent.usage i o], none)) ∨
       (∃ msg, createMessage res = (es, some msg))) := by
  rcases res with e | r
  · exact ⟨[], by simp, Or.inr ⟨e, rfl⟩⟩
  · rcases hrs : runStream r.stream with ⟨es, o⟩
    refine ⟨es, ?_, ?_⟩
    · intro e he
      exact runStream_mem r.stream e (by rw [hrs] at *; exact he)
    · rcases o with _ | e
      · rcases hresp : r.response with _ | response
        · exact Or.inr ⟨"No response received from Gemini API",
            by simp [createMessage, hrs, hresp]⟩
        · by_cases h1 : finishReasonOf response = some "SAFETY"
          · exact Or.inr ⟨"Content generation was blocked for safety reasons",
              by simp [createMessage, hrs, hresp, h1]⟩
          · by_cases h2 : finishReasonOf response = some "RECITATION"
            · exact Or.inr
                ⟨"Content generation was blocked due to potential copyright issues",
                 by simp [createMessage, hrs, hresp, h1, h2]⟩
            · by_cases h3 : finishReasonOf response = some "OTHER"
              · exact Or.inr ⟨"Content generation was blocked for other reasons",
                  by simp [createMessage, hrs, hresp, h1, h2, h3]⟩
              · exact Or.inl
                  ⟨(response.usageMetadata.bind UsageMetadata.promptTokenCount).getD 0,
                   (response.usageMetadata.bind UsageMetadata.candidatesTokenCount).getD 0,
                   by simp [createMessage, hrs, hresp, h1, h2, h3]⟩
      · exact Or.inr ⟨e, by simp [createMessage, hrs]⟩

/-- A list of non-empty TextChunks contains no usage event, no error
event, and no empty TextChunk. -/
theorem text_list_counts (es : List StreamEvent)
    (h : ∀ e ∈ es, ∃ s, e = StreamEvent.text s ∧ s ≠ "") :
    es.countP (fun e => isUsage e) = 0 ∧
    es.countP (fun e => isErr e) = 0 ∧
    es.countP (fun e => isUsage e || isErr e) = 0 ∧
    StreamEvent.text "" ∉ es := by
  refine ⟨?_, ?_, ?_, ?_⟩
  · rw [List.countP_eq_zero]
    intro e he
    rcases h e he with ⟨s, rfl, _⟩
    simp [isUsage]
  · rw [List.countP_eq_zero]
    intro e he
    rcases h e he with ⟨s, rfl, _⟩
    simp [isErr]
  · rw [List.countP_eq_zero]
    intro e he
    rcases h e he with ⟨s, rfl, _⟩
    simp [isUsage, isErr]
  · intro he
    rcases h _ he with ⟨s, hs, hne⟩
    exact hne (by injection hs with h1; exact h1.symm)

/-- If the fragment loop hits a chunk whose decode raises, after a prefix
of cleanly decoded chunks, it stops there: the events are exactly those
of the prefix, the exception is the decode error, and the chunks after
the bad one contribute nothing. -/
theorem runStream_append_error (pre : List Chunk) (c : Chunk)
    (post : List Chunk) (e : String)
    (hc : c.text = Except.error e)
    (hpre : ∀ x ∈ pre, x.text.isOk = true) :
    runStream (pre ++ c :: post) = ((runStream pre).1, some e) := by
  induction pre with
  | nil => simp [runStream, hc]
  | cons x xs ih =>
    have hx : x.text.isOk = true := hpre x (by simp)
    have hrest : ∀ y ∈ xs, y.text.isOk = true := fun y hy => hpre y (by simp [hy])
    rcases hxt : x.text with ex | t
    · rw [hxt] at hx
      simp [Except.isOk, Except.toBool] at hx
    · by_cases ht : t = ""
      · simpa [runStream, hxt, ht] using ih hrest
      · have := ih hrest
        simp only [List.cons_append, runStream, hxt, if_neg ht, List.append_eq, this]

/-! Claim theorems. -/

/-- C1: once an attempt has forwarded at least one event to the caller,
a subsequent failure is forwarded as a terminal Error and the wrapper
performs zero further attempts, whatever outcomes later attempts would
have had and whatever budget remains. -/
theorem retry_no_retry_after_first_forwarded_event
    (budget : Nat) (a : Attempt) (rest : List Attempt) (f : String × Bool)
    (hne : a.events ≠ [])
    (hf : a.failure = some f) :
    runRetry budget (a :: rest) = (a.events ++ [StreamEvent.err f.1], 1) := by
  simp [runRetry, hf, hne]

/-- C1 witness: a first attempt that forwards one TextChunk and then
fails retryably, with budget left and a successful attempt available, is
not retried: the caller sees the chunk then a terminal Error, and
exactly one attempt is performed. -/
theorem retry_no_retry_after_first_forwarded_event_witness :
    runRetry 3
      [{ events := [StreamEvent.text "hi"], failure := some ("fail", true) },
       { events := [StreamEvent.text "again"], failure := none }] =
      ([StreamEvent.text "hi", StreamEvent.err "fail"], 1) :=
  retry_no_retry_after_first_forwarded_event 3
    { events := [StreamEvent.text "hi"], failure := some ("fail", true) }
    [{ events := [StreamEvent.text "again"], failure := none }]
    ("fail", true) (by decide) rfl

/-- C6: getModel is a total pure lookup: a known identifier returns its
own catalog entry, an unknown or absent identifier returns the default
descriptor, and the returned pair is always an entry of the catalog. -/
theorem getModel_total_lookup_default
    (cat : GeminiCatalog) (options : ApiHandlerOptions) :
    (∀ id info, options.apiModelId = some id →
       cat.models.lookup id = some info → getModel cat options = (id, info)) ∧
    ((∀ id, options.apiModelId = some id → cat.models.lookup id = none) →
       getModel cat options = (cat.defaultId, cat.defaultInfo)) ∧
    cat.models.lookup (getModel cat options).1 = some (getModel cat options).2 := by
  refine ⟨?_, ?_, ?_⟩
  · intro id info hid hinfo
    by_cases hemp : id = ""
    · rw [hemp] at hinfo
      rw [cat.no_empty_key] at hinfo
      exact absurd hinfo (by simp)
    · simp [getModel, hid, truthy, hemp, hinfo]
  · intro hu
    rcases hid : options.apiModelId with _ | id
    · simp [getModel, hid, truthy]
    · by_cases hemp : id = ""
      · simp [getModel, hid, truthy, hemp]
      · simp [getModel, hid, truthy, hemp, hu id hid]
  · rcases hid : options.apiModelId with _ | id
    · simpa [getModel, hid, truthy] using cat.default_mem
    · by_cases hemp : id = ""
      · simpa [getModel, hid, truthy, hemp] using cat.default_mem
      · rcases hlk : cat.models.lookup id with _ | info
        · simpa [getModel, hid, truthy, hemp, hlk] using cat.default_mem
        · simp [getModel, hid, truthy, hemp, hlk]

/-- C6 witness: on the concrete catalog, looking up the unknown
identifier returns the designated default descriptor. -/
theorem getModel_total_lookup_default_witness :
    getModel exampleCatalog
      { geminiApiKey := some "k", apiModelId := some "unknown-model-xyz" } =
      (exampleCatalog.defaultId, exampleCatalog.defaultInfo) :=
  (getModel_total_lookup_default exampleCatalog
    { geminiApiKey := some "k", apiModelId := some "unknown-model-xyz" }).2.1
    (fun id hid => by
      injection hid with hid
      rw [← hid]
      decide)

/-- C7 counterexample: options whose geminiApiKey is present but equal
to the empty string. The credential is supplied, yet construction throws
rather than succeeding, because the constructor tests JavaScript
truthiness, under which the empty string is falsy. -/
theorem construct_empty_key_counterexample :
    emptyKeyOptions.geminiApiKey = some "" ∧
    GeminiHandler.construct emptyKeyOptions =
      Except.error "API key is required for Google Gemini" := by
  constructor
  · rfl
  · rfl

/-- C7 amended: construction fails immediately exactly when the
credential is falsy — absent or the empty string — and succeeds for
every options value whose credential is a non-empty string, storing the
options and building the client with the key. -/
theorem construct_fails_iff_key_falsy (options : ApiHandlerOptions) :
    ((options.geminiApiKey = none ∨ options.geminiApiKey = some "") →
       GeminiHandler.construct options =
         Except.error "API key is required for Google Gemini") ∧
    (∀ k, k ≠ "" → options.geminiApiKey = some k →
       GeminiHandler.construct options =
         Except.ok { options := options, clientKey := k }) := by
  constructor
  · rintro (h | h) <;> simp [GeminiHandler.construct, truthy, h]
  · intro k hk h
    simp [GeminiHandler.construct, truthy, h, hk]

/-- C7 witness: a non-empty key constructs successfully, and an absent
key throws. -/
theorem construct_fails_iff_key_falsy_witness :
    GeminiHandler.construct { geminiApiKey := some "key", apiModelId := none } =
      Except.ok { options := { geminiApiKey := some "key", apiModelId := none },
                  clientKey := "key" } ∧
    GeminiHandler.construct { geminiApiKey := none, apiModelId := none } =
      Except.error "API key is required for Google Gemini" :=
  ⟨(construct_fails_iff_key_falsy
      { geminiApiKey := some "key", apiModelId := none }).2 "key" (by decide) rfl,
   (construct_fails_iff_key_falsy
      { geminiApiKey := none, apiModelId := none }).1 (Or.inl rfl)⟩

/-- C9: when no .clineignore file exists, validateAccess grants access
to every path — the gate fails open, whatever the matcher state is. -/
theorem validateAccess_fails_open
    (c : ClineIgnoreController) (filePath : String)
    (h : c.clineIgnoreExists = false) :
    validateAccess c filePath = true := by
  simp [validateAccess, h]

/-- C9 witness: a controller with no ignore file and a matcher that
would reject everything still grants access. -/
theorem validateAccess_fails_open_witness :
    validateAccess noIgnoreFileController "secrets.txt" = true :=
  validateAccess_fails_open noIgnoreFileController "secrets.txt" rfl

/-- C10: filterPaths is exactly List.filter of validateAccess over its
input — hence an order-preserving sublist: no path is added, duplicated
or reordered. -/
theorem filterPaths_eq_filter (c : ClineIgnoreController) (paths : List String) :
    filterPaths c paths = paths.filter (fun p => validateAccess c p) ∧
    (filterPaths c paths).Sublist paths := by
  have heq : filterPaths c paths = paths.filter (fun p => validateAccess c p) := by
    induction paths with
    | nil => rfl
    | cons p ps ih =>
      by_cases hp : validateAccess c p <;>
        simp [filterPaths, List.filter, hp] at ih ⊢ <;> exact ih
  exact ⟨heq, heq ▸ List.filter_sublist paths⟩

/-- The last element of a list ending in a singleton. -/
theorem getLast_append_singleton {α : Type} (l : List α) (a : α) :
    (l ++ [a]).getLast? = some a := by
  induction l with
  | nil => rfl
  | cons x xs ih =>
    rw [List.cons_append, List.getLast?_cons, ih]
    cases xs <;> simp [List.getLast?]

/-- C2 counterexample: a stream whose trailer carries finishReason
LENGTH (length-truncated) and zero text fragments. The claim demands a
single Error event, but the adapter checks only SAFETY, RECITATION and
OTHER, so the sequence is a lone zero-count usage event and contains no
Error at all. -/
theorem length_finish_no_error_counterexample :
    eventSeq (Except.ok lengthResult) = [StreamEvent.usage 0 0] ∧
    (eventSeq (Except.ok lengthResult)).countP (fun e => isErr e) = 0 := by
  constructor <;> rfl

/-- C2 amended: for every stream whose trailer carries a safety-blocked
or policy-blocked finish classification (SAFETY, RECITATION or OTHER)
and whose fragment loop produced no events and no exception, the event
sequence is exactly one Error event whose message describes the block
reason; in particular SAFETY yields the content-policy message.
Length-truncated streams are not included: they complete with a usage
event instead. -/
theorem block_finish_yields_single_error
    (r : GenResult) (response : GenResponse) (finishReason : String)
    (h1 : runStream r.stream = ([], none))
    (h2 : r.response = some response)
    (h3 : finishReasonOf response = some finishReason)
    (h4 : finishReason = "SAFETY" ∨ finishReason = "RECITATION" ∨
          finishReason = "OTHER") :
    eventSeq (Except.ok r) = [StreamEvent.err (blockMessage finishReason)] := by
  rcases h4 with h4 | h4 | h4 <;> subst h4 <;>
    simp [eventSeq, createMessage, h1, h2, h3, blockMessage]

/-- C2 witness: finishReason SAFETY with zero text fragments yields
exactly the single safety-block Error event. -/
theorem block_finish_yields_single_error_witness :
    eventSeq (Except.ok safetyResult) =
      [StreamEvent.err "Content generation was blocked for safety reasons"] := by
  rw [block_finish_yields_single_error safetyResult
    { candidates := [{ finishReason := some "SAFETY" }], usageMetadata := none }
    "SAFETY" rfl rfl rfl (Or.inl rfl)]
  rfl

/-- C4: every completed invocation observes at most one terminal event —
counting usage and error events together, the event sequence holds at
most one — so no stream carries both a Usage and an Error. -/
theorem at_most_one_terminal_event (res : Except String GenResult) :
    (eventSeq res).countP (fun e => isUsage e || isErr e) ≤ 1 := by
  obtain ⟨es, hes, hcase⟩ := createMessage_events res
  have h0 := (text_list_counts es hes).2.2.1
  rcases hcase with ⟨i, o, hu⟩ | ⟨msg, hm⟩
  · have hseq : eventSeq res = es ++ [StreamEvent.usage i o] := by
      simp [eventSeq, hu]
    rw [hseq, List.countP_append, h0]
    simp [List.countP_cons, isUsage, isErr]
  · have hseq : eventSeq res = es ++ [StreamEvent.err msg] := by
      simp [eventSeq, hm]
    rw [hseq, List.countP_append, h0]
    simp [List.countP_cons, isUsage, isErr]

/-- C5: a chunk whose decode raises, after a prefix of cleanly decoded
chunks, aborts the stream at that chunk: the caller observes the
events of the prefix followed by a terminal Error, and no event from the
chunks after the malformed one. -/
theorem decode_error_aborts_stream
    (r : GenResult) (pre post : List Chunk) (c : Chunk) (e : String)
    (hs : r.stream = pre ++ c :: post)
    (hc : c.text = Except.error e)
    (hpre : ∀ x ∈ pre, x.text.isOk = true) :
    eventSeq (Except.ok r) = (runStream pre).1 ++ [StreamEvent.err e] := by
  have h := runStream_append_error pre c post e hc hpre
  simp [eventSeq, createMessage, hs, h]

/-- C5 witness: a stream decoding "a", then raising, then carrying "b"
yields the TextChunk for "a" followed by the Error, and nothing for "b". -/
theorem decode_error_aborts_stream_witness :
    eventSeq (Except.ok abortResult) =
      [StreamEvent.text "a", StreamEvent.err "boom"] := by
  rw [decode_error_aborts_stream abortResult
    [{ text := Except.ok "a" }] [{ text := Except.ok "b" }]
    { text := Except.error "boom" } "boom" rfl rfl (by decide)]
  rfl

/-- C8: no completed stream contains an empty TextChunk, and a fragment
decoding to the empty string is dropped: the loop continues over the
remaining chunks exactly as if that fragment were not there. -/
theorem no_empty_text_chunk
    (res : Except String GenResult) (c : Chunk) (cs : List Chunk)
    (hc : c.text = Except.ok "") :
    StreamEvent.text "" ∉ eventSeq res ∧ runStream (c :: cs) = runStream cs := by
  constructor
  · obtain ⟨es, hes, hcase⟩ := createMessage_events res
    have h0 := (text_list_counts es hes).2.2.2
    rcases hcase with ⟨i, o, hu⟩ | ⟨msg, hm⟩
    · intro hmem
      exact h0 (by simpa [eventSeq, hu] using hmem)
    · intro hmem
      exact h0 (by simpa [eventSeq, hm] using hmem)
  · simp [runStream, hc]

/-- C8 witness: the stream with an empty first fragment yields only the
TextChunk for "x", and dropping the empty fragment leaves the loop
unchanged. -/
theorem no_empty_text_chunk_witness :
    StreamEvent.text "" ∉ eventSeq (Except.ok emptyFragmentResult) ∧
    runStream [{ text := Except.ok "" }, { text := Except.ok "x" }] =
      runStream [{ text := Except.ok "x" }] :=
  no_empty_text_chunk (Except.ok emptyFragmentResult)
    { text := Except.ok "" } [{ text := Except.ok "x" }] rfl

/-- C3: every successful run of createMessage yields exactly one usage
event, that event is last, and when the backend response carries no
usage metadata the event still appears, with both counters defaulted to
zero. -/
theorem usage_event_unique_last_defaulted
    (res : Except String GenResult) (evts : List StreamEvent)
    (h : createMessage res = (evts, none)) :
    evts.countP (fun e => isUsage e) = 1 ∧
    (∃ i o, evts.getLast? = some (StreamEvent.usage i o)) ∧
    (∀ r response, res = Except.ok r → r.response = some response →
       response.usageMetadata = none →
       evts.getLast? = some (StreamEvent.usage 0 0)) := by
  obtain ⟨es, hes, hcase⟩ := createMessage_events res
  rcases hcase with ⟨i, o, hu⟩ | ⟨msg, hm⟩
  · rw [hu] at h
    have hev : evts = es ++ [StreamEvent.usage i o] :=
      (congrArg Prod.fst h).symm
    refine ⟨?_, ?_, ?_⟩
    · rw [hev, List.countP_append, (text_list_counts es hes).1]
      simp [List.countP_cons, isUsage]
    · exact ⟨i, o, by rw [hev]; exact getLast_append_singleton es _⟩
    · intro r response hres hresp hmeta
      subst hres
      rcases hrs : runStream r.stream with ⟨es', o'⟩
      rcases o' with _ | e
      · by_cases f1 : finishReasonOf response = some "SAFETY"
        · simp [createMessage, hrs, hresp, f1] at hu
        · by_cases f2 : finishReasonOf response = some "RECITATION"
          · simp [createMessage, hrs, hresp, f1, f2] at hu
          · by_cases f3 : finishReasonOf response = some "OTHER"
            · simp [createMessage, hrs, hresp, f1, f2, f3] at hu
            · have hfin : createMessage (Except.ok r) =
                  (es' ++ [StreamEvent.usage 0 0], none) := by
                simp [createMessage, hrs, hresp, f1, f2, f3, hmeta]
              rw [hu] at hfin
              have : es ++ [StreamEvent.usage i o] =
                  es' ++ [StreamEvent.usage 0 0] := congrArg Prod.fst hfin
              rw [hev, this]
              exact getLast_append_singleton es' _
      · simp [createMessage, hrs] at hu
  · rw [hm] at h
    have : some msg = none := congrArg Prod.snd h
    exact absurd this (by simp)

/-- C3 witness: spec Scenario A completes with the events
TextChunk Hel, TextChunk lo!, Usage 5 2: one usage event, in last
position. -/
theorem usage_event_unique_last_defaulted_witness :
    scenarioAEvents.countP (fun e => isUsage e) = 1 ∧
    scenarioAEvents.getLast? = some (StreamEvent.usage 5 2) :=
  ⟨(usage_event_unique_last_defaulted (Except.ok scenarioAResult)
      scenarioAEvents (by decide)).1,
   by decide⟩

end Cline
